import Mathlib

/-!
Verification of the notification relay in `src/index.js`
(sillytavern-notifier-server).

The relay keeps a process-wide map `clients : ClientId → WebSocket`,
admits connections by generating a random hex id and sending a welcome,
validates incoming `notify` submissions against the allowed event
vocabulary `EVENT_TYPES`, and fans the stamped envelope out to every
registered client other than the sender whose socket is `OPEN`.

We embed the data model and the operations shallowly:

* JSON values are the inductive `Json`; JavaScript truthiness is
  `Json.truthy` (the code uses `!message.type`, `message.event && …`,
  `message.data || {}`).
* A parsed client message is `ClientMessage`, the fields the code reads
  (`type`, `event`, `data`) plus a `timestamp` field that a client may
  send and the code ignores.  An unparseable body is `Option.none`.
* The client map is an association list `Registry` in insertion order,
  mirroring the iteration order of a JavaScript `Map`.
* `broadcastToOthers` returns the ordered list of writes it performs
  (recipient id, message); the JavaScript function itself performs the
  `ws.send` calls and returns `undefined`, which we record separately as
  `broadcastToOthersReturnValue`.
* The per-socket `error` handler installed in `handleConnection`
  (lines 115–118) deletes the client from the map when its socket
  errors; `messageStep` composes `handleMessage` with these deletions
  for the sockets whose delivery write failed, with the transport
  outcome modelled by `sendOk`.
* `exitStep` is the `exit` teardown: when the server is up it closes
  every client socket with code 1000, clears the map and drops the
  server handle; otherwise it does nothing.
-/

set_option autoImplicit false

namespace Relay

/-- A JSON value, as produced by `JSON.parse`. -/
inductive Json where
  | null
  | bool (b : Bool)
  | num (n : Int)
  | str (s : String)
  | arr (elems : List Json)
  | obj (fields : List (String × Json))

/-- JavaScript truthiness of a JSON value (`null`, `false`, `0` and `""`
are falsy; arrays and objects are always truthy). -/
def Json.truthy : Json → Bool
  | .null => false
  | .bool b => b
  | .num n => n != 0
  | .str s => s != ""
  | .arr _ => true
  | .obj _ => true

/-- Truthiness of a possibly-absent field (`undefined` is falsy). -/
def jsTruthy : Option Json → Bool
  | none => false
  | some j => j.truthy

/-- JavaScript strict equality of a possibly-absent field with a string
literal, as used by `switch (message.type)`: only the identical string
value matches. -/
def isStr (j : Option Json) (s : String) : Bool :=
  match j with
  | some (.str t) => t == s
  | _ => false

/-- Membership test `Object.values(EVENT_TYPES).includes(v)`: strict-equality membership,
so only a string value can match the string vocabulary. -/
def includesStr (vocab : List String) : Json → Bool
  | .str s => vocab.contains s
  | _ => false

/-- The expression `message.data || {}`: a truthy data field passes
through, a falsy or absent one is replaced by the empty object. -/
def dataOrEmpty : Option Json → Json
  | some j => if j.truthy then j else .obj []
  | none => .obj []

/-- The allowed event vocabulary, `Object.values(EVENT_TYPES)`
(src/index.js lines 17–21). -/
def EVENT_TYPES : List String := ["character_message", "user_message"]

/-- The `ws` library's `readyState` value for an open socket. -/
def OPEN : Nat := 1

/-- The state of one client's WebSocket that the relay inspects. -/
structure WS where
  readyState : Nat
deriving DecidableEq, Repr

/-- The process-wide `clients` map (`clientId → WebSocket`), kept in
insertion order like a JavaScript `Map`. -/
abbrev Registry := List (String × WS)

/-- The fields of a parsed submission that the relay reads, plus a
`timestamp` field a client may send and the relay never reads. -/
structure ClientMessage where
  type : Option Json
  event : Option Json
  data : Option Json
  timestamp : Option Json

/-- A message written by the server to some client socket. -/
inductive ServerMsg where
  /-- Reply `{type:'error', message}` -/
  | errorMsg (message : String)
  /-- Reply `{type:'pong'}` -/
  | pong
  /-- Message `{type:'notification', event, timestamp, data}`: the broadcast
  envelope built in `handleMessage` lines 66–71. -/
  | envelope (event : Json) (timestamp : Nat) (data : Json)
  /-- Message `{type:'welcome', clientId, supportedEvents}` -/
  | welcome (clientId : String) (supportedEvents : List String)

/-- Function `broadcastToOthers` (src/index.js lines 35–43): iterate over the
client map and send the message to every client whose id differs from
the sender and whose socket is `OPEN`.  The result is the ordered list
of writes performed. -/
def broadcastToOthers (senderId : String) (message : ServerMsg)
    (clients : Registry) : List (String × ServerMsg) :=
  (clients.filter fun c => c.1 != senderId && c.2.readyState == OPEN).map
    fun c => (c.1, message)

/-- The value a call to `broadcastToOthers` evaluates to: the JavaScript
function body contains no `return` statement, so every call returns
`undefined`. -/
inductive JSUndefined where
  | undefined
deriving DecidableEq

/-- The caller-visible return value of `broadcastToOthers`. -/
def broadcastToOthersReturnValue (_senderId : String) (_message : ServerMsg)
    (_clients : Registry) : JSUndefined := .undefined

/-- Function `handleMessage` (src/index.js lines 51–86) on an already-parsed body
(`none` models a `JSON.parse` failure).  Returns the reply sent back on
the sender's own socket, if any, and the list of broadcast writes. -/
def handleMessage (clientId : String) (parsed : Option ClientMessage)
    (now : Nat) (clients : Registry) :
    Option ServerMsg × List (String × ServerMsg) :=
  match parsed with
  | none => (some (.errorMsg "Invalid JSON"), [])
  | some message =>
    if !jsTruthy message.type then
      (some (.errorMsg "Missing message type"), [])
    else if isStr message.type "notify" then
      match message.event with
      | some ev =>
        if ev.truthy && includesStr EVENT_TYPES ev then
          (none,
           broadcastToOthers clientId
             (.envelope ev now (dataOrEmpty message.data)) clients)
        else (none, [])
      | none => (none, [])
    else if isStr message.type "ping" then
      (some .pong, [])
    else (none, [])

/-- One full message-handling step of the relay, composing
`handleMessage` with the per-socket `error` handlers registered in
`handleConnection` (src/index.js lines 115–118): a delivery write that
fails raises an `error` event on that socket, whose handler deletes the
client from the map.  `sendOk` is the transport outcome of a write to
each client.  Returns the registry after the step, the reply to the
sender and the list of attempted broadcast writes. -/
def messageStep (senderId : String) (parsed : Option ClientMessage)
    (now : Nat) (sendOk : String → Bool) (clients : Registry) :
    Registry × Option ServerMsg × List (String × ServerMsg) :=
  let r := handleMessage senderId parsed now clients
  let failed := r.2.filter fun w => !sendOk w.1
  (clients.filter fun c => !(failed.any fun w => w.1 == c.1), r.1, r.2)

/-- The two hex characters encoding one byte, as `Buffer.toString('hex')`
writes it (`Nat.digitChar` maps 0–15 to `'0'`–`'9'`, `'a'`–`'f'`). -/
def byteToHexChars (b : Nat) : List Char :=
  [Nat.digitChar (b / 16), Nat.digitChar (b % 16)]

/-- Function `generateClientId` (src/index.js lines 26–28):
`crypto.randomBytes(8).toString('hex')`, with the drawn random bytes
made an explicit argument. -/
def generateClientId (bytes : List Nat) : String :=
  String.mk (bytes.map byteToHexChars).flatten

/-- The sequence of ClientIds returned by successive admissions, one
entropy draw per admission. -/
def admitIds (draws : List (List Nat)) : List String :=
  draws.map generateClientId

/-- Map update `clients.set id ws`: replace the value of an existing key in place,
otherwise append (JavaScript `Map.set` keeps insertion order). -/
def registrySet (id : String) (w : WS) (reg : Registry) : Registry :=
  if reg.any (fun c => c.1 == id) then
    reg.map fun c => if c.1 == id then (id, w) else c
  else reg ++ [(id, w)]

/-- Map removal `clients.delete id` (the `close`/`error` handlers and any `Remove`):
drop every entry with that key. -/
def registryDelete (id : String) (reg : Registry) : Registry :=
  reg.filter fun c => c.1 != id

/-- Function `handleConnection` (src/index.js lines 92–103): generate an id from
the entropy draw, store the socket, and send the welcome message. -/
def handleConnection (entropy : List Nat) (w : WS) (reg : Registry) :
    Registry × String × ServerMsg :=
  let clientId := generateClientId entropy
  (registrySet clientId w reg, clientId,
   .welcome clientId EVENT_TYPES)

/-- Count `connectedClients` reported by the `/info` route
(src/index.js lines 155–161): `clients.size`. -/
def infoConnectedClients (reg : Registry) : Nat := reg.length

/-- A `ws.close(code, reason)` call issued during teardown. -/
structure CloseCall where
  code : Nat
  reason : String
deriving DecidableEq

/-- The part of the module state that `exit` touches: whether `wsServer`
is non-null, and the client map. -/
structure ServerState where
  wsServer : Bool
  clients : Registry
deriving DecidableEq

/-- Function `exit` (src/index.js lines 174–190): when the server handle is
present, close every client socket with `(1000, 'Server shutting
down')`, clear the map and null the handle; otherwise do nothing.
Returns the new state and the list of close calls issued. -/
def exitStep (s : ServerState) : ServerState × List (String × CloseCall) :=
  if s.wsServer then
    ({ wsServer := false, clients := [] },
     s.clients.map fun c => (c.1, ⟨1000, "Server shutting down"⟩))
  else (s, [])

end Relay

namespace Relay

/-! ## Basic lemmas about the embedded operations -/

/-- A three-client registry, all sockets open. -/
def demoReg : Registry := [("a", ⟨1⟩), ("b", ⟨1⟩), ("c", ⟨1⟩)]

/-- A two-client registry, both sockets open. -/
def demoReg2 : Registry := [("a", ⟨1⟩), ("b", ⟨1⟩)]

theorem map_fst_filter (p : String → Bool) (l : Registry) :
    (l.filter fun c => p c.1).map Prod.fst = (l.map Prod.fst).filter p := by
  induction l with
  | nil => rfl
  | cons c t ih => cases h : p c.1 <;> simp [List.filter_cons, h, ih]

theorem handleMessage_notify (clientId : String) (ev : Json) (d ts : Option Json)
    (now : Nat) (clients : Registry)
    (hev : (ev.truthy && includesStr EVENT_TYPES ev) = true) :
    handleMessage clientId (some ⟨some (.str "notify"), some ev, d, ts⟩) now clients
      = (none, broadcastToOthers clientId (.envelope ev now (dataOrEmpty d)) clients) := by
  have h0 : handleMessage clientId (some ⟨some (.str "notify"), some ev, d, ts⟩) now clients
      = if ev.truthy && includesStr EVENT_TYPES ev then
          (none, broadcastToOthers clientId (.envelope ev now (dataOrEmpty d)) clients)
        else (none, []) := rfl
  rw [h0, hev]
  simp

theorem handleMessage_notify_unknown (clientId : String) (ev : Json) (d ts : Option Json)
    (now : Nat) (clients : Registry)
    (hev : (ev.truthy && includesStr EVENT_TYPES ev) = false) :
    handleMessage clientId (some ⟨some (.str "notify"), some ev, d, ts⟩) now clients
      = (none, []) := by
  have h0 : handleMessage clientId (some ⟨some (.str "notify"), some ev, d, ts⟩) now clients
      = if ev.truthy && includesStr EVENT_TYPES ev then
          (none, broadcastToOthers clientId (.envelope ev now (dataOrEmpty d)) clients)
        else (none, []) := rfl
  rw [h0, hev]
  simp

theorem broadcastToOthers_map_fst (s : String) (m : ServerMsg) (clients : Registry)
    (hopen : ∀ c ∈ clients, c.2.readyState = OPEN) :
    (broadcastToOthers s m clients).map Prod.fst
      = (clients.map Prod.fst).filter fun r => r != s := by
  have hfil : (clients.filter fun c => c.1 != s && c.2.readyState == OPEN)
      = clients.filter fun c => c.1 != s :=
    List.filter_congr fun c hc => by simp [hopen c hc]
  have hcomp : (Prod.fst ∘ fun c : String × WS => (c.1, m)) = Prod.fst := rfl
  rw [broadcastToOthers, List.map_map, hcomp, hfil]
  exact map_fst_filter (fun r => r != s) clients

theorem messageStep_writes (s : String) (parsed : Option ClientMessage) (now : Nat)
    (sendOk : String → Bool) (clients : Registry) :
    (messageStep s parsed now sendOk clients).2.2
      = (handleMessage s parsed now clients).2 := rfl

theorem messageStep_reply (s : String) (parsed : Option ClientMessage) (now : Nat)
    (sendOk : String → Bool) (clients : Registry) :
    (messageStep s parsed now sendOk clients).2.1
      = (handleMessage s parsed now clients).1 := rfl

theorem mem_messageStep_registry (s : String) (parsed : Option ClientMessage)
    (now : Nat) (sendOk : String → Bool) (clients : Registry) (c : String × WS) :
    c ∈ (messageStep s parsed now sendOk clients).1
      ↔ c ∈ clients ∧ ∀ w ∈ (handleMessage s parsed now clients).2,
          sendOk w.1 = false → w.1 ≠ c.1 := by
  show c ∈ clients.filter _ ↔ _
  rw [List.mem_filter]
  constructor
  · rintro ⟨hc, hp⟩
    refine ⟨hc, fun w hw hfail heq => ?_⟩
    have : ((handleMessage s parsed now clients).2.filter
        fun w => !sendOk w.1).any (fun w => w.1 == c.1) = true := by
      rw [List.any_eq_true]
      exact ⟨w, List.mem_filter.2 ⟨hw, by simp [hfail]⟩, by simp [heq]⟩
    simp [this] at hp
  · rintro ⟨hc, hall⟩
    refine ⟨hc, ?_⟩
    simp only [Bool.not_eq_true', List.any_eq_false]
    intro w hw
    rw [List.mem_filter] at hw
    have := hall w hw.1 (by simpa using hw.2)
    simpa using this

/-! ## C1 -/

/-- C1: for every registry whose sockets are all open and every submission
from a sender `s` in the registry naming an allowed event kind, the set of
clients the broadcaster writes the envelope to is exactly the registered
clients other than `s`: listwise, the recipients are the registry's keys
with `s` removed, and a client receives the envelope iff it is registered
and is not the sender. -/
theorem C1_broadcast_exactly_others (clients : Registry) (s : String) (ev : Json)
    (d ts : Option Json) (now : Nat)
    (hopen : ∀ c ∈ clients, c.2.readyState = OPEN)
    (_hs : s ∈ clients.map Prod.fst)
    (hev : (ev.truthy && includesStr EVENT_TYPES ev) = true) :
    ((handleMessage s (some ⟨some (.str "notify"), some ev, d, ts⟩) now clients).2).map Prod.fst
        = (clients.map Prod.fst).filter (fun r => r != s)
      ∧ ∀ r : String,
          (r ∈ ((handleMessage s (some ⟨some (.str "notify"), some ev, d, ts⟩)
                  now clients).2).map Prod.fst
            ↔ r ∈ clients.map Prod.fst ∧ r ≠ s) := by
  have hmsg := handleMessage_notify s ev d ts now clients hev
  have hbc := broadcastToOthers_map_fst s (.envelope ev now (dataOrEmpty d)) clients hopen
  rw [hmsg]
  refine ⟨hbc, fun r => ?_⟩
  rw [hbc, List.mem_filter]
  simp [bne_iff_ne]

/-- Witness for C1 at a concrete three-client registry: the broadcast from
`"a"` goes to `"b"` and `"c"` exactly. -/
theorem C1_broadcast_exactly_others_witness :
    ((handleMessage "a"
        (some ⟨some (.str "notify"), some (.str "character_message"), none, none⟩)
        0 demoReg).2).map Prod.fst = ["b", "c"] :=
  ((C1_broadcast_exactly_others demoReg "a" (.str "character_message") none none 0
      (by decide) (by decide) (by decide)).1).trans (by decide)

/-! ## C2 -/

/-- C2 counterexample: the concrete submission `{type:'notify'}`, which
lacks the event-kind field, makes the relay send no reply at all to the
submitter (in particular no client error) and perform zero deliveries,
refuting that a missing event kind is answered with a client error. -/
theorem C2_missing_event_counterexample :
    (handleMessage "a" (some ⟨some (.str "notify"), none, none, none⟩) 0 demoReg).1 = none
  ∧ (handleMessage "a" (some ⟨some (.str "notify"), none, none, none⟩) 0 demoReg).2 = [] :=
  ⟨rfl, rfl⟩

/-- C2 amended: a submission missing the message-type discriminator (or
with a falsy one) is answered with the distinguishable client error
`'Missing message type'` and zero deliveries; a `notify` submission
missing the event-kind field performs zero deliveries but is silently
ignored — no error is sent back to the submitter. -/
theorem C2_missing_fields (sender : String) (now : Nat) (clients : Registry)
    (m : ClientMessage) (hty : jsTruthy m.type = false) (d ts : Option Json) :
    handleMessage sender (some m) now clients
      = (some (.errorMsg "Missing message type"), [])
  ∧ handleMessage sender (some ⟨some (.str "notify"), none, d, ts⟩) now clients
      = (none, []) := by
  constructor
  · show (if !jsTruthy m.type then _ else _) = _
    rw [hty]
    simp
  · rfl

/-- Witness for C2 at concrete submissions `{}` and `{type:'notify'}`. -/
theorem C2_missing_fields_witness :
    handleMessage "a" (some ⟨none, none, none, none⟩) 0 demoReg
      = (some (.errorMsg "Missing message type"), [])
  ∧ handleMessage "a" (some ⟨some (.str "notify"), none, none, none⟩) 0 demoReg
      = (none, []) :=
  C2_missing_fields "a" 0 demoReg ⟨none, none, none, none⟩ rfl none none

/-! ## C3 -/

/-- C3: a `notify` submission naming an event kind outside the allowed
vocabulary writes no envelope to any registered client, returns no error
to the sender, and leaves the registry unchanged. -/
theorem C3_unknown_event_dropped (clients : Registry) (s : String) (ev : Json)
    (d ts : Option Json) (now : Nat) (sendOk : String → Bool)
    (hev : includesStr EVENT_TYPES ev = false) :
    messageStep s (some ⟨some (.str "notify"), some ev, d, ts⟩) now sendOk clients
      = (clients, none, []) := by
  have hmsg : handleMessage s (some ⟨some (.str "notify"), some ev, d, ts⟩) now clients
      = (none, []) :=
    handleMessage_notify_unknown s ev d ts now clients (by rw [hev]; simp)
  show (clients.filter _, _, _) = _
  rw [hmsg]
  simp

/-- Witness for C3: the unknown kind `"unsupported_event"` against a
concrete two-client registry is dropped without any effect. -/
theorem C3_unknown_event_dropped_witness :
    messageStep "a"
      (some ⟨some (.str "notify"), some (.str "unsupported_event"), none, none⟩)
      0 (fun _ => true) demoReg2
      = (demoReg2, none, []) :=
  C3_unknown_event_dropped demoReg2 "a" (.str "unsupported_event") none none 0
    (fun _ => true) (by decide)

theorem mem_broadcastToOthers (s : String) (m : ServerMsg) (clients : Registry)
    (w : String × ServerMsg) (hw : w ∈ broadcastToOthers s m clients) :
    ∃ c ∈ clients, c.1 = w.1 ∧ c.1 ≠ s ∧ c.2.readyState = OPEN ∧ w.2 = m := by
  rw [broadcastToOthers] at hw
  obtain ⟨c, hc, hcw⟩ := List.mem_map.1 hw
  rw [List.mem_filter] at hc
  have hp := hc.2
  simp only [Bool.and_eq_true, bne_iff_ne, beq_iff_eq] at hp
  exact ⟨c, hc.1, by rw [← hcw], hp.1, hp.2, by rw [← hcw]⟩

theorem fst_mem_broadcastToOthers (s : String) (m : ServerMsg) (clients : Registry)
    (c : String × WS) (hc : c ∈ clients) (hne : c.1 ≠ s)
    (hopen : c.2.readyState = OPEN) :
    c.1 ∈ (broadcastToOthers s m clients).map Prod.fst := by
  rw [broadcastToOthers, List.map_map]
  exact List.mem_map.2 ⟨c, List.mem_filter.2 ⟨hc, by simp [hne, hopen]⟩, rfl⟩

theorem handleMessage_writes_shape (s : String) (parsed : Option ClientMessage)
    (now : Nat) (clients : Registry) :
    (handleMessage s parsed now clients).2 = []
    ∨ ∃ m, (handleMessage s parsed now clients).2 = broadcastToOthers s m clients := by
  rcases parsed with _ | ⟨ty, evf, df, tsf⟩
  · exact Or.inl rfl
  rcases evf with _ | ev
  · have hbody : handleMessage s (some ⟨ty, none, df, tsf⟩) now clients
        = if !jsTruthy ty then (some (.errorMsg "Missing message type"), [])
          else if isStr ty "notify" then (none, [])
          else if isStr ty "ping" then (some .pong, [])
          else (none, []) := rfl
    rw [hbody]
    split
    · exact Or.inl rfl
    split
    · exact Or.inl rfl
    split
    · exact Or.inl rfl
    · exact Or.inl rfl
  · have hbody : handleMessage s (some ⟨ty, some ev, df, tsf⟩) now clients
        = if !jsTruthy ty then (some (.errorMsg "Missing message type"), [])
          else if isStr ty "notify" then
            (if ev.truthy && includesStr EVENT_TYPES ev then
              (none, broadcastToOthers s (.envelope ev now (dataOrEmpty df)) clients)
            else (none, []))
          else if isStr ty "ping" then (some .pong, [])
          else (none, []) := rfl
    rw [hbody]
    split
    · exact Or.inl rfl
    split
    · split
      · exact Or.inr ⟨.envelope ev now (dataOrEmpty df), rfl⟩
      · exact Or.inl rfl
    split
    · exact Or.inl rfl
    · exact Or.inl rfl

theorem eq_of_mem_nodup_keys :
    ∀ {l : Registry}, (l.map Prod.fst).Nodup →
      ∀ {c c' : String × WS}, c ∈ l → c' ∈ l → c.1 = c'.1 → c = c' := by
  intro l
  induction l with
  | nil => intro _ c c' hc; cases hc
  | cons a t ih =>
    intro hnd c c' hc hc' h
    rw [List.map_cons, List.nodup_cons] at hnd
    rcases List.mem_cons.1 hc with rfl | hct
    · rcases List.mem_cons.1 hc' with rfl | hc't
      · rfl
      · exact absurd (by rw [h]; exact List.mem_map_of_mem Prod.fst hc't) hnd.1
    · rcases List.mem_cons.1 hc' with rfl | hc't
      · exact absurd (by rw [← h]; exact List.mem_map_of_mem Prod.fst hct) hnd.1
      · exact ih hnd.2 hct hc't h

/-! ## C4 -/

/-- C4: during a broadcast of a validated submission, a write failure on
one recipient's socket does not stop the fan-out — every open non-sender
client is still attempted regardless of which writes fail — the client
whose write failed is removed from the registry by its socket's error
handler, clients whose writes succeed stay registered, and no failure is
ever reported back to the sender (the reply is `none`). -/
theorem C4_write_failure_contained (clients : Registry) (s : String) (ev : Json)
    (d ts : Option Json) (now : Nat) (sendOk : String → Bool)
    (hev : (ev.truthy && includesStr EVENT_TYPES ev) = true) :
    (messageStep s (some ⟨some (.str "notify"), some ev, d, ts⟩) now sendOk clients).2.1
        = none
  ∧ (∀ c ∈ clients, c.1 ≠ s → c.2.readyState = OPEN →
      c.1 ∈ ((messageStep s (some ⟨some (.str "notify"), some ev, d, ts⟩)
                now sendOk clients).2.2).map Prod.fst)
  ∧ (∀ c ∈ clients,
      c.1 ∈ ((messageStep s (some ⟨some (.str "notify"), some ev, d, ts⟩)
                now sendOk clients).2.2).map Prod.fst →
      sendOk c.1 = false →
      c.1 ∉ ((messageStep s (some ⟨some (.str "notify"), some ev, d, ts⟩)
                now sendOk clients).1).map Prod.fst)
  ∧ (∀ c ∈ clients, sendOk c.1 = true →
      c ∈ (messageStep s (some ⟨some (.str "notify"), some ev, d, ts⟩)
            now sendOk clients).1) := by
  have hmsg := handleMessage_notify s ev d ts now clients hev
  refine ⟨?_, ?_, ?_, ?_⟩
  · rw [messageStep_reply, hmsg]
  · intro c hc hne hopen
    rw [messageStep_writes, hmsg]
    exact fst_mem_broadcastToOthers s _ clients c hc hne hopen
  · intro c hc hatt hfail hmem
    rw [messageStep_writes] at hatt
    obtain ⟨c', hc', hc'fst⟩ := List.mem_map.1 hmem
    obtain ⟨w, hw, hwfst⟩ := List.mem_map.1 hatt
    have hreg := (mem_messageStep_registry s _ now sendOk clients c').1 hc'
    exact hreg.2 w hw (by rw [hwfst]; exact hfail) (by rw [hwfst, hc'fst])
  · intro c hc hok
    refine (mem_messageStep_registry s _ now sendOk clients c).2 ⟨hc, ?_⟩
    intro w _ hfail heq
    rw [heq, hok] at hfail
    cases hfail

/-- The transport outcome used in the C4 witness: the write to client
`"c"` fails, all others succeed. -/
def failOnlyC : String → Bool := fun id => id != "c"

/-- Witness for C4: three open clients `a`, `b`, `c`; `a` submits a valid
event and the write to `c` fails.  The reply to `a` is `none`, `b` is
still attempted, and `c` is gone from the registry after the step. -/
theorem C4_write_failure_contained_witness :
    (messageStep "a"
        (some ⟨some (.str "notify"), some (.str "character_message"), none, none⟩)
        0 failOnlyC demoReg).2.1 = none
  ∧ "b" ∈ ((messageStep "a"
        (some ⟨some (.str "notify"), some (.str "character_message"), none, none⟩)
        0 failOnlyC demoReg).2.2).map Prod.fst
  ∧ "c" ∉ ((messageStep "a"
        (some ⟨some (.str "notify"), some (.str "character_message"), none, none⟩)
        0 failOnlyC demoReg).1).map Prod.fst :=
  ⟨(C4_write_failure_contained demoReg "a" (.str "character_message") none none 0
      failOnlyC (by decide)).1,
   (C4_write_failure_contained demoReg "a" (.str "character_message") none none 0
      failOnlyC (by decide)).2.1 ("b", ⟨1⟩) (by decide) (by decide) (by decide),
   (C4_write_failure_contained demoReg "a" (.str "character_message") none none 0
      failOnlyC (by decide)).2.2.1 ("c", ⟨1⟩) (by decide) (by decide) (by decide)⟩

/-! ## C6 -/

/-- C6 counterexample: the submission
`{type:'notify', event:'character_message', data:false}` has the payload
`false`, but the envelope delivered to `b` carries the empty object `{}`
instead: `message.data || {}` replaces every falsy payload, so the payload
is not always passed through unmodified. -/
theorem C6_falsy_payload_counterexample :
    (handleMessage "a"
        (some ⟨some (.str "notify"), some (.str "character_message"),
               some (.bool false), none⟩) 5 demoReg2).2
      = [("b", .envelope (.str "character_message") 5 (.obj []))]
  ∧ Json.bool false ≠ Json.obj [] :=
  ⟨rfl, fun h => Json.noConfusion h⟩

/-- C6 amended: for every validated submission the envelope's timestamp
is the server clock `now` (the client-supplied `timestamp` field `ts` is
never read), every recipient receives that same envelope, an absent
payload defaults to the empty object, a truthy payload is passed through
unmodified, and a falsy payload is replaced by the empty object. -/
theorem C6_server_timestamp_payload (s : String) (ev : Json) (d ts : Option Json)
    (now : Nat) (clients : Registry)
    (hev : (ev.truthy && includesStr EVENT_TYPES ev) = true) :
    (handleMessage s (some ⟨some (.str "notify"), some ev, d, ts⟩) now clients).2
      = broadcastToOthers s (.envelope ev now (dataOrEmpty d)) clients
  ∧ (∀ w ∈ (handleMessage s (some ⟨some (.str "notify"), some ev, d, ts⟩)
        now clients).2, w.2 = .envelope ev now (dataOrEmpty d))
  ∧ (d = none → dataOrEmpty d = .obj [])
  ∧ (∀ j, d = some j → j.truthy = true → dataOrEmpty d = j)
  ∧ (∀ j, d = some j → j.truthy = false → dataOrEmpty d = .obj []) := by
  have hmsg := handleMessage_notify s ev d ts now clients hev
  refine ⟨by rw [hmsg], ?_, ?_, ?_, ?_⟩
  · rw [hmsg]
    intro w hw
    obtain ⟨c, _, _, _, _, hw2⟩ := mem_broadcastToOthers s _ clients w hw
    exact hw2
  · intro h; rw [h]; rfl
  · intro j hj htr; rw [hj]; simp [dataOrEmpty, htr]
  · intro j hj hf; rw [hj]; simp [dataOrEmpty, hf]

/-- Witness for C6: a truthy payload `{text:"hi"}` and a client-sent
`timestamp` of `999`; the envelope still carries the server clock `5` and
the payload unchanged. -/
theorem C6_server_timestamp_payload_witness :
    (handleMessage "a"
        (some ⟨some (.str "notify"), some (.str "character_message"),
               some (.obj [("text", .str "hi")]), some (.num 999)⟩)
        5 demoReg2).2
      = broadcastToOthers "a"
          (.envelope (.str "character_message") 5
            (dataOrEmpty (some (.obj [("text", .str "hi")])))) demoReg2
  ∧ dataOrEmpty (some (.obj [("text", .str "hi")])) = .obj [("text", .str "hi")] :=
  ⟨(C6_server_timestamp_payload "a" (.str "character_message")
      (some (.obj [("text", .str "hi")])) (some (.num 999)) 5 demoReg2 (by decide)).1,
   (C6_server_timestamp_payload "a" (.str "character_message")
      (some (.obj [("text", .str "hi")])) (some (.num 999)) 5 demoReg2
      (by decide)).2.2.2.1 (.obj [("text", .str "hi")]) rfl (by decide)⟩

/-! ## C8 -/

theorem registryDelete_absent (reg : Registry) (id : String)
    (h : id ∉ reg.map Prod.fst) : registryDelete id reg = reg := by
  rw [registryDelete]
  apply List.filter_eq_self.2
  intro c hc
  simp only [bne_iff_ne, ne_eq, decide_eq_true_eq]
  intro heq
  exact h (heq ▸ List.mem_map_of_mem Prod.fst hc)

theorem registryDelete_present_length :
    ∀ (reg : Registry) (id : String), (reg.map Prod.fst).Nodup →
      id ∈ reg.map Prod.fst → (registryDelete id reg).length + 1 = reg.length := by
  intro reg
  induction reg with
  | nil => intro id _ hmem; cases hmem
  | cons c t ih =>
    intro id hnd hmem
    rw [List.map_cons, List.nodup_cons] at hnd
    rcases List.mem_cons.1 (by rw [List.map_cons] at hmem; exact hmem) with heq | hmem'
    · have hcid : (c.1 != id) = false := by simp [heq]
      have h1 : registryDelete id (c :: t) = registryDelete id t := by
        rw [registryDelete, registryDelete, List.filter_cons, hcid]
        simp
      have h2 : registryDelete id t = t :=
        registryDelete_absent t id (heq ▸ hnd.1)
      rw [h1, h2, List.length_cons]
    · have hcid : (c.1 != id) = true := by
        simp only [bne_iff_ne, ne_eq, decide_eq_true_eq]
        intro hcid
        exact hnd.1 (hcid ▸ hmem')
      have h1 : registryDelete id (c :: t) = c :: registryDelete id t := by
        rw [registryDelete, registryDelete, List.filter_cons, hcid]
        simp
      rw [h1, List.length_cons, List.length_cons, ← ih id hnd.2 hmem']

/-- C8: removal is idempotent — deleting an absent ClientId leaves the
registry unchanged, deleting a present one (keys are unique in a `Map`)
shrinks the size by exactly one and is reflected immediately, deleting
twice equals deleting once, and no broadcast over the resulting registry
ever writes to the removed id's endpoint. -/
theorem C8_remove_idempotent (reg : Registry) (id : String) :
    (id ∉ reg.map Prod.fst → registryDelete id reg = reg)
  ∧ ((reg.map Prod.fst).Nodup → id ∈ reg.map Prod.fst →
      (registryDelete id reg).length + 1 = reg.length)
  ∧ registryDelete id (registryDelete id reg) = registryDelete id reg
  ∧ (∀ s m w, w ∈ broadcastToOthers s m (registryDelete id reg) → w.1 ≠ id) := by
  refine ⟨registryDelete_absent reg id, registryDelete_present_length reg id, ?_, ?_⟩
  · apply registryDelete_absent
    intro hmem
    obtain ⟨c, hc, hcfst⟩ := List.mem_map.1 hmem
    rw [registryDelete, List.mem_filter] at hc
    have := hc.2
    simp [hcfst] at this
  · intro s m w hw
    obtain ⟨c, hc, hcfst, _⟩ := mem_broadcastToOthers s m _ w hw
    rw [registryDelete, List.mem_filter] at hc
    have := hc.2
    simp only [bne_iff_ne, ne_eq, decide_eq_true_eq] at this
    rw [← hcfst]
    exact this

/-- Witness for C8 at a concrete registry: deleting the present id `"b"`
shrinks the two-client registry to size 1, and deleting the absent id
`"z"` is a no-op. -/
theorem C8_remove_idempotent_witness :
    (registryDelete "b" demoReg2).length + 1 = demoReg2.length
  ∧ registryDelete "z" demoReg2 = demoReg2 :=
  ⟨(C8_remove_idempotent demoReg2 "b").2.1 (by decide) (by decide),
   (C8_remove_idempotent demoReg2 "z").1 (by decide)⟩

/-! ## C9 -/

/-- C9 counterexample: `broadcastToOthers` returns `undefined` on every
call — in particular, a call that attempts two recipients and a call that
attempts zero return the very same value, so no function of the returned
value can recover the attempted (or succeeded) delivery count: the code
returns no outcome. -/
theorem C9_no_outcome_counterexample :
    ¬ ∃ counts : JSUndefined → Nat,
        counts (broadcastToOthersReturnValue "a" .pong demoReg)
          = (broadcastToOthers "a" .pong demoReg).length
      ∧ counts (broadcastToOthersReturnValue "a" .pong [])
          = (broadcastToOthers "a" .pong []).length := by
  rintro ⟨f, h1, h2⟩
  have h1' : f JSUndefined.undefined = 2 := h1
  have h2' : f JSUndefined.undefined = 0 := h2
  rw [h1'] at h2'
  exact (by decide : (2 : Nat) ≠ 0) h2'

/-- C9 amended: the broadcast returns no outcome at all — its return
value is `undefined` whatever the sender, message and registry are, so it
indicates nothing about attempted or succeeded deliveries. -/
theorem C9_returns_undefined (s s' : String) (m m' : ServerMsg)
    (clients clients' : Registry) :
    broadcastToOthersReturnValue s m clients
      = broadcastToOthersReturnValue s' m' clients' := rfl

/-! ## C10 -/

/-- C10: a broadcast writes the envelope only to endpoints whose socket
state is `OPEN`; a registered endpoint that is not open is skipped (never
written to) but is not removed by the broadcast — it survives the whole
message step, whatever the transport outcomes were — and with no write
failures the step leaves the registry exactly unchanged, so the skipped
entry still counts toward the `/info` `connectedClients` size, which is
the registry length. -/
theorem C10_open_only_skipped_kept (clients : Registry) (s : String) (m : ServerMsg)
    (parsed : Option ClientMessage) (now : Nat) (sendOk : String → Bool)
    (hnd : (clients.map Prod.fst).Nodup) :
    (∀ w ∈ broadcastToOthers s m clients,
        ∃ c ∈ clients, c.1 = w.1 ∧ c.2.readyState = OPEN)
  ∧ (∀ c ∈ clients, c.2.readyState ≠ OPEN →
        c.1 ∉ (broadcastToOthers s m clients).map Prod.fst)
  ∧ (∀ c ∈ clients, c.2.readyState ≠ OPEN →
        c ∈ (messageStep s parsed now sendOk clients).1)
  ∧ (messageStep s parsed now (fun _ => true) clients).1 = clients
  ∧ infoConnectedClients clients = clients.length := by
  refine ⟨?_, ?_, ?_, ?_, rfl⟩
  · intro w hw
    obtain ⟨c, hc, hcfst, _, hopen, _⟩ := mem_broadcastToOthers s m clients w hw
    exact ⟨c, hc, hcfst, hopen⟩
  · intro c hc hnotopen hmem
    obtain ⟨w, hw, hwfst⟩ := List.mem_map.1 hmem
    obtain ⟨c', hc', hc'fst, _, hopen, _⟩ := mem_broadcastToOthers s m clients w hw
    have : c = c' := eq_of_mem_nodup_keys hnd hc hc' (hc'fst.trans hwfst).symm
    rw [this] at hnotopen
    exact hnotopen hopen
  · intro c hc hnotopen
    refine (mem_messageStep_registry s parsed now sendOk clients c).2 ⟨hc, ?_⟩
    intro w hw _ heq
    rcases handleMessage_writes_shape s parsed now clients with hsh | ⟨m', hsh⟩
    · rw [hsh] at hw; cases hw
    · rw [hsh] at hw
      obtain ⟨c', hc', hc'fst, _, hopen, _⟩ := mem_broadcastToOthers s m' clients w hw
      have : c' = c := eq_of_mem_nodup_keys hnd hc' hc (by rw [hc'fst, heq])
      rw [this] at hopen
      exact hnotopen hopen
  · show clients.filter _ = clients
    apply List.filter_eq_self.2
    intro c _
    simp

/-- A registry where `b`'s socket is not open. -/
def demoRegHalf : Registry := [("a", ⟨1⟩), ("b", ⟨0⟩)]

/-- Witness for C10: with `a` open and `b` not open, a broadcast from `a`
writes to nobody in `{b}`, and `b`'s entry survives the message step. -/
theorem C10_open_only_skipped_kept_witness :
    "b" ∉ (broadcastToOthers "a" .pong demoRegHalf).map Prod.fst
  ∧ ("b", (⟨0⟩ : WS)) ∈ (messageStep "a" none 0 failOnlyC demoRegHalf).1
  ∧ (messageStep "a" none 0 (fun _ => true) demoRegHalf).1 = demoRegHalf :=
  ⟨(C10_open_only_skipped_kept demoRegHalf "a" .pong none 0 failOnlyC
      (by decide)).2.1 ("b", ⟨0⟩) (by decide) (by decide),
   (C10_open_only_skipped_kept demoRegHalf "a" .pong none 0 failOnlyC
      (by decide)).2.2.1 ("b", ⟨0⟩) (by decide) (by decide),
   (C10_open_only_skipped_kept demoRegHalf "a" .pong none 0 failOnlyC
      (by decide)).2.2.2.1⟩

/-! ## C5 -/

theorem hexDigit_inj :
    ∀ m n : Fin 16, Nat.digitChar m.1 = Nat.digitChar n.1 → m = n := by
  decide

theorem byteToHexChars_inj {a b : Nat} (ha : a < 256) (hb : b < 256)
    (h : byteToHexChars a = byteToHexChars b) : a = b := by
  rw [byteToHexChars, byteToHexChars] at h
  simp only [List.cons.injEq, and_true] at h
  have hda : a / 16 < 16 := by omega
  have hdb : b / 16 < 16 := by omega
  have hma : a % 16 < 16 := Nat.mod_lt _ (by omega)
  have hmb : b % 16 < 16 := Nat.mod_lt _ (by omega)
  have e1 := congrArg Fin.val (hexDigit_inj ⟨a / 16, hda⟩ ⟨b / 16, hdb⟩ h.1)
  have e2 := congrArg Fin.val (hexDigit_inj ⟨a % 16, hma⟩ ⟨b % 16, hmb⟩ h.2)
  simp only at e1 e2
  omega

theorem hexFlatten_inj :
    ∀ (l1 l2 : List Nat), (∀ x ∈ l1, x < 256) → (∀ x ∈ l2, x < 256) →
      (l1.map byteToHexChars).flatten = (l2.map byteToHexChars).flatten → l1 = l2 := by
  intro l1
  induction l1 with
  | nil =>
    intro l2 _ _ h
    cases l2 with
    | nil => rfl
    | cons b t => simp [byteToHexChars] at h
  | cons a t1 ih =>
    intro l2 h1 h2 h
    cases l2 with
    | nil => simp [byteToHexChars] at h
    | cons b t2 =>
      simp only [List.map_cons, List.flatten_cons, byteToHexChars, List.cons_append,
        List.nil_append, List.cons.injEq] at h
      obtain ⟨e1, e2, etail⟩ := h
      have hab : a = b :=
        byteToHexChars_inj (h1 a (by simp)) (h2 b (by simp))
          (by rw [byteToHexChars, byteToHexChars, e1, e2])
      rw [hab,
        ih t2 (fun x hx => h1 x (by simp [hx])) (fun x hx => h2 x (by simp [hx])) etail]

theorem generateClientId_inj {l1 l2 : List Nat} (h1 : ∀ x ∈ l1, x < 256)
    (h2 : ∀ x ∈ l2, x < 256) (h : generateClientId l1 = generateClientId l2) :
    l1 = l2 :=
  hexFlatten_inj l1 l2 h1 h2 (congrArg String.data h)

/-- C5 counterexample: `generateClientId` hex-encodes whatever random
bytes were drawn, with no collision check — two admissions whose 8-byte
draws happen to coincide return the very same ClientId, so the ids of a
sequence of admissions are not unconditionally pairwise distinct. -/
theorem C5_collision_counterexample :
    admitIds [[0, 0, 0, 0, 0, 0, 0, 0], [0, 0, 0, 0, 0, 0, 0, 0]]
      = ["0000000000000000", "0000000000000000"]
  ∧ ¬ (admitIds [[0, 0, 0, 0, 0, 0, 0, 0], [0, 0, 0, 0, 0, 0, 0, 0]]).Nodup :=
  ⟨rfl, by decide⟩

/-- C5 amended: a ClientId is the hex encoding of the 8 random bytes
drawn at admission; the encoding is injective on byte sequences, so the
ids of an admission sequence are pairwise distinct exactly when the
underlying random draws are — uniqueness is the collision-resistance of
`crypto.randomBytes`, not an unconditional guarantee. -/
theorem C5_ids_distinct_of_draws_distinct (draws : List (List Nat))
    (hb : ∀ d ∈ draws, ∀ x ∈ d, x < 256) (hnd : draws.Nodup) :
    (admitIds draws).Nodup := by
  rw [admitIds]
  exact List.Nodup.map_on
    (fun x hx y hy hxy => generateClientId_inj (hb x hx) (hb y hy) hxy) hnd

/-- Witness for C5 at two concrete distinct draws. -/
theorem C5_ids_distinct_of_draws_distinct_witness :
    (admitIds [[0, 0, 0, 0, 0, 0, 0, 0], [1, 0, 0, 0, 0, 0, 0, 0]]).Nodup :=
  C5_ids_distinct_of_draws_distinct
    [[0, 0, 0, 0, 0, 0, 0, 0], [1, 0, 0, 0, 0, 0, 0, 0]] (by decide) (by decide)

/-! ## C7 -/

/-- C7: with the server handle present, the drain operation `exit` issues
a `(1000, 'Server shutting down')` close call to every currently
registered endpoint and clears the registry to size 0; a second
invocation finds the handle gone, changes nothing and issues no close
calls, and draining an already-empty registry issues no close calls —
`exitStep` is a total function, so no invocation errors. -/
theorem C7_drain (s : ServerState) (h : s.wsServer = true) :
    (exitStep s).2 = s.clients.map (fun c => (c.1, ⟨1000, "Server shutting down"⟩))
  ∧ (exitStep s).1.clients = []
  ∧ infoConnectedClients (exitStep s).1.clients = 0
  ∧ exitStep (exitStep s).1 = ((exitStep s).1, [])
  ∧ (s.clients = [] → (exitStep s).2 = []) := by
  have hstep : exitStep s = ({ wsServer := false, clients := [] },
      s.clients.map fun c => (c.1, ⟨1000, "Server shutting down"⟩)) := by
    rw [exitStep, if_pos h]
  refine ⟨by rw [hstep], by rw [hstep], by rw [hstep]; rfl, by rw [hstep]; rfl,
    fun hc => by rw [hstep]; simp [hc]⟩

/-- Witness for C7: two connected clients, both receive the close notice,
the registry ends at size 0, and a second drain is a no-op. -/
theorem C7_drain_witness :
    (exitStep ⟨true, demoReg2⟩).2
      = [("a", ⟨1000, "Server shutting down"⟩), ("b", ⟨1000, "Server shutting down"⟩)]
  ∧ (exitStep ⟨true, demoReg2⟩).1.clients = []
  ∧ exitStep (exitStep ⟨true, demoReg2⟩).1 = ((exitStep ⟨true, demoReg2⟩).1, []) :=
  ⟨((C7_drain ⟨true, demoReg2⟩ rfl).1).trans (by decide),
   (C7_drain ⟨true, demoReg2⟩ rfl).2.1,
   (C7_drain ⟨true, demoReg2⟩ rfl).2.2.2.1⟩

/-! ## Sanity checks on concrete runs -/

example :
    broadcastToOthers "a" .pong [("a", ⟨1⟩), ("b", ⟨1⟩), ("c", ⟨0⟩)]
      = [("b", ServerMsg.pong)] := rfl

example :
    handleMessage "a"
      (some ⟨some (.str "notify"), some (.str "character_message"), none, none⟩)
      7 [("a", ⟨1⟩), ("b", ⟨1⟩)]
      = (none, [("b", .envelope (.str "character_message") 7 (.obj []))]) := rfl

example :
    handleMessage "a"
      (some ⟨some (.str "notify"), none, none, none⟩) 7 [("a", ⟨1⟩), ("b", ⟨1⟩)]
      = (none, []) := rfl

example : generateClientId [0, 0, 0, 0, 0, 0, 0, 0] = "0000000000000000" := rfl

example :
    exitStep ⟨true, [("a", ⟨1⟩), ("b", ⟨1⟩)]⟩
      = (⟨false, []⟩, [("a", ⟨1000, "Server shutting down"⟩),
                       ("b", ⟨1000, "Server shutting down"⟩)]) := rfl

end Relay
